import Mathlib

/-!
Verification of the food-blog data-access layer (src/database.py, src/blog.py).

The SQLite-backed data-access layer is shallowly embedded: the database is a
record of six tables (lists of rows), SQL values are a small dynamic type
`Val`, fallible Python functions return `Except PyErr`, and each function of
src/database.py is translated to a Lean function of the same name.  The query
strings each function builds from its f-string templates are embedded as
string-builder definitions, and fixed executors give the SQLite semantics of
exactly the statement texts the program can produce; any other statement text
is an `operationalError` (the SQLite parser rejects it or the named table or
column is absent).
-/

/-- A SQLite storage value: INTEGER, TEXT, or NULL.  (The program never stores
REAL or BLOB values through the embedded operations.) -/
inductive Val
  | int (n : Int)
  | text (s : String)
  | null
deriving Repr, DecidableEq

/-- INTEGER column affinity: a text value that looks like an integer is stored
as an integer; other values are stored unchanged. -/
def integerAffinity : Val → Val
  | .text s =>
    match s.toInt? with
    | some n => .int n
    | none => .text s
  | v => v

/-- Python str() of a value, as used when a value is interpolated into an
f-string. -/
def valStr : Val → String
  | .int n => toString n
  | .text s => s
  | .null => "None"

/-- Row of table meals: meal_id INTEGER PRIMARY KEY, meal_name TEXT NOT NULL UNIQUE. -/
structure MealRow where
  meal_id : Int
  meal_name : String
deriving Repr, DecidableEq

/-- Row of table ingredients: ingredient_id INTEGER PRIMARY KEY,
ingredient_name TEXT NOT NULL UNIQUE. -/
structure IngredientRow where
  ingredient_id : Int
  ingredient_name : String
deriving Repr, DecidableEq

/-- Row of table measures: measure_id INTEGER PRIMARY KEY, measure_name TEXT UNIQUE. -/
structure MeasureRow where
  measure_id : Int
  measure_name : String
deriving Repr, DecidableEq

/-- Row of table recipes: recipe_id INTEGER PRIMARY KEY, recipe_name TEXT NOT
NULL, recipe_description TEXT (nullable). -/
structure RecipeRow where
  recipe_id : Int
  recipe_name : String
  recipe_description : Option String
deriving Repr, DecidableEq

/-- Row of table serve: serve_id INTEGER PRIMARY KEY AUTOINCREMENT, recipe_id
INTEGER NOT NULL, meal_id INTEGER NOT NULL, with declared (but only
conditionally enforced, see `wrapperForeignKeysOn`) foreign keys to recipes
and meals. -/
structure ServeRow where
  serve_id : Int
  recipe_id : Int
  meal_id : Int
deriving Repr, DecidableEq

/-- Row of table quantity: quantity_id INTEGER PRIMARY KEY AUTOINCREMENT,
quantity INTEGER NOT NULL, recipe_id / measure_id / ingredient_id INTEGER NOT
NULL with declared foreign keys.  The non-key fields keep SQLite dynamic
typing (`Val`): the program binds whatever Python values the caller passed. -/
structure QuantityRow where
  quantity_id : Int
  quantity : Val
  recipe_id : Val
  measure_id : Val
  ingredient_id : Val
deriving Repr, DecidableEq

/-- The database: the six tables created by generate_tables (database.py
lines 79-133). -/
structure DBState where
  meals : List MealRow
  ingredients : List IngredientRow
  measures : List MeasureRow
  recipes : List RecipeRow
  serve : List ServeRow
  quantity : List QuantityRow
deriving Repr, DecidableEq

def DBState.empty : DBState := ⟨[], [], [], [], [], []⟩

/-- Python exceptions surfaced by the data-access layer. -/
inductive PyErr
  | valueError (msg : String)
  /-- sqlite3.OperationalError: malformed SQL, unknown table or column. -/
  | operationalError
  /-- sqlite3.IntegrityError: UNIQUE / NOT NULL / FOREIGN KEY violation
  (the ConstraintViolation of the spec taxonomy). -/
  | integrityError
deriving Repr, DecidableEq

/-- Message of the ValueError raised for an unsupported table name,
database.py line 215 and the like. -/
def unsupportedTableMsg (t : String) : String := "Unsupported table name: " ++ t

/-- Message of the ValueError Python raises when unpacking a 3-tuple into two
variables (database.py line 484: table_name, attribute_value = args). -/
def unpackTwoMsg : String := "too many values to unpack (expected 2)"

/-! ## Connection lifecycle (db_connect decorator, database.py lines 44-76)

The wrapper first probes the handle with a trivial introspection query and
then tries to enable foreign keys with

    conn.excecute("PRAGMA foreign_keys = ON;")

"excecute" is a misspelling of "execute": the attribute lookup on the
sqlite3.Connection object fails, the resulting AttributeError is caught by
the except clause, and the wrapper replaces the handle with a freshly opened
connection, on which the PRAGMA has never been issued.  SQLite keeps foreign
key enforcement OFF by default, so every wrapped operation runs with foreign
keys unenforced. -/

/-- Method names the sqlite3.Connection object exposes (the ones this program
touches).  Note there is no method named excecute. -/
def connectionMethods : List String :=
  ["execute", "executemany", "executescript", "cursor", "commit", "close"]

/-- Attribute lookup on the connection object succeeds exactly for its
methods. -/
def hasMethod (m : String) : Bool := connectionMethods.contains m

/-- Whether PRAGMA foreign_keys is ON for the connection a wrapped function
actually runs on: it is ON only if the attribute lookup for "excecute"
succeeded so that the PRAGMA statement was executed. -/
def wrapperForeignKeysOn : Bool := hasMethod "excecute"

/-! ## Table Registry (attribute_conf, database.py lines 161-182) -/

/-- attribute_conf: dictionary lookup mapping a table name to its name
column; `none` models Python None for any key outside the dictionary. -/
def attribute_conf (table_name : String) : Option String :=
  if table_name = "meals" then some "meal_name"
  else if table_name = "ingredients" then some "ingredient_name"
  else if table_name = "measures" then some "measure_name"
  else if table_name = "recipes" then some "recipe_name"
  else none

/-! ## Query texts

One definition per f-string template in the source, so that the exact
statement text each function submits is a first-class object. -/

/-- insert_db, line 218: the f-string omits the table name entirely. -/
def insert_db_query (attribute_column : String) : String :=
  "INSERT INTO (" ++ attribute_column ++ ") VALUES (:value);"

/-- insert_ingredient_measure, line 339 (no space before the parenthesis). -/
def insert_ingredient_measure_query (table_name attribute_column : String) : String :=
  "INSERT INTO " ++ table_name ++ "(" ++ attribute_column ++ ") VALUES (:value);"

/-- insert_many_db, line 421 (one space before the parenthesis). -/
def insert_many_db_query (table_name attribute_column : String) : String :=
  "INSERT INTO " ++ table_name ++ " (" ++ attribute_column ++ ") VALUES (:value);"

/-- select_db, line 527. -/
def select_db_query (table_name attribute_column : String) : String :=
  "SELECT * FROM " ++ table_name ++ " WHERE " ++ attribute_column ++ " = :value;"

/-- db_remove, line 491. -/
def db_remove_query (table_name attribute_column : String) : String :=
  "DELETE FROM " ++ table_name ++ " WHERE " ++ attribute_column ++ " = :value;"

/-- select_all_db, line 559. -/
def select_all_db_query (table_name : String) : String :=
  "SELECT * FROM " ++ table_name ++ ";"

/-- insert_to_quantity, lines 380-382. -/
def insert_to_quantity_query (table_name : String) : String :=
  "INSERT INTO " ++ table_name ++
    "(quantity, [recipe_id], [measure_id], [ingredient_id]) VALUES (:value1, :value2, :value3, :value4);"

/-- insert_to_serve, line 296 (the table name serve is hard-coded). -/
def insert_to_serve_query : String :=
  "INSERT INTO serve([recipe_id], [meal_id]) VALUES (:value1, :value2);"

/-! ## Bound statements (query text plus named-parameter bindings)

These embed only the statement-construction step of each primitive (registry
lookup, f-string, parameter dictionary), used to state that the value is
bound, never interpolated. -/

structure BoundStmt where
  query : String
  params : List (String × String)
deriving Repr, DecidableEq

structure BoundBatch where
  query : String
  paramsSeq : List (List (String × String))
deriving Repr, DecidableEq

/-- Statement construction of insert_ingredient_measure (lines 334-343):
registry lookup, then query text from table and column only, value bound as
the named parameter value. -/
def insert_ingredient_measure_stmt (table_name attribute_value : String) : Option BoundStmt :=
  (attribute_conf table_name).map fun c =>
    ⟨insert_ingredient_measure_query table_name c, [("value", attribute_value)]⟩

/-- Statement construction of insert_many_db (lines 416-427): one parameter
dictionary per value, executed with executemany against a single query
text. -/
def insert_many_db_stmt (table_name : String) (attribute_values : List String) :
    Option BoundBatch :=
  (attribute_conf table_name).map fun c =>
    ⟨insert_many_db_query table_name c, attribute_values.map fun v => [("value", v)]⟩

/-- Statement construction of select_db (lines 522-531). -/
def select_db_stmt (table_name attribute_value : String) : Option BoundStmt :=
  (attribute_conf table_name).map fun c =>
    ⟨select_db_query table_name c, [("value", attribute_value)]⟩

/-- Statement construction of db_remove (lines 486-494). -/
def db_remove_stmt (table_name attribute_value : String) : Option BoundStmt :=
  (attribute_conf table_name).map fun c =>
    ⟨db_remove_query table_name c, [("value", attribute_value)]⟩

/-! ## Statement executors

SQLite semantics of the statement texts the program can build.  Each executor
recognises the statements that are well formed against the schema of
generate_tables and answers any other text with operationalError (parse error,
unknown table, or unknown column). -/

/-- Next rowid for an INTEGER PRIMARY KEY column: one more than the current
maximum (SQLite picks max rowid + 1 when all rowids are nonnegative). -/
def nextId (ids : List Int) : Int := ids.foldr max 0 + 1

def mealTuple (r : MealRow) : List Val := [.int r.meal_id, .text r.meal_name]

def ingredientTuple (r : IngredientRow) : List Val := [.int r.ingredient_id, .text r.ingredient_name]

def measureTuple (r : MeasureRow) : List Val := [.int r.measure_id, .text r.measure_name]

def recipeTuple (r : RecipeRow) : List Val :=
  [.int r.recipe_id, .text r.recipe_name,
   match r.recipe_description with
   | some d => .text d
   | none => .null]

def serveTuple (s : ServeRow) : List Val := [.int s.serve_id, .int s.recipe_id, .int s.meal_id]

def quantityTuple (q : QuantityRow) : List Val :=
  [.int q.quantity_id, q.quantity, q.recipe_id, q.measure_id, q.ingredient_id]

/-- Insert one value into meals.meal_name; the UNIQUE constraint on meal_name
rejects duplicates. -/
def insertMealValue (value : String) (st : DBState) : Except PyErr DBState :=
  if st.meals.any (fun r => r.meal_name == value) then .error .integrityError
  else .ok { st with meals := st.meals ++ [⟨nextId (st.meals.map (·.meal_id)), value⟩] }

/-- Insert one value into ingredients.ingredient_name (UNIQUE). -/
def insertIngredientValue (value : String) (st : DBState) : Except PyErr DBState :=
  if st.ingredients.any (fun r => r.ingredient_name == value) then .error .integrityError
  else .ok { st with ingredients :=
    st.ingredients ++ [⟨nextId (st.ingredients.map (·.ingredient_id)), value⟩] }

/-- Insert one value into measures.measure_name (UNIQUE). -/
def insertMeasureValue (value : String) (st : DBState) : Except PyErr DBState :=
  if st.measures.any (fun r => r.measure_name == value) then .error .integrityError
  else .ok { st with measures :=
    st.measures ++ [⟨nextId (st.measures.map (·.measure_id)), value⟩] }

/-- Insert one value into recipes.recipe_name (no UNIQUE constraint;
recipe_description is left NULL). -/
def insertRecipeValue (value : String) (st : DBState) : Except PyErr DBState :=
  .ok { st with recipes :=
    st.recipes ++ [⟨nextId (st.recipes.map (·.recipe_id)), value, none⟩] }

/-- Which table a single-column name insert addresses, judging only the
statement text.  Exactly the texts produced by `insert_ingredient_measure_query`
and `insert_many_db_query` at a supported table/column pair are valid; every
other text (in particular the table-less text of `insert_db_query`) is
rejected by the SQLite parser or names a missing table or column. -/
def insertTableOf (query : String) : Option String :=
  if query = insert_ingredient_measure_query "meals" "meal_name" ∨
     query = insert_many_db_query "meals" "meal_name" then some "meals"
  else if query = insert_ingredient_measure_query "ingredients" "ingredient_name" ∨
     query = insert_many_db_query "ingredients" "ingredient_name" then some "ingredients"
  else if query = insert_ingredient_measure_query "measures" "measure_name" ∨
     query = insert_many_db_query "measures" "measure_name" then some "measures"
  else if query = insert_ingredient_measure_query "recipes" "recipe_name" ∨
     query = insert_many_db_query "recipes" "recipe_name" then some "recipes"
  else none

/-- Execute a single-column INSERT with one bound parameter named value. -/
def execInsertValue (query : String) (value : String) (st : DBState) : Except PyErr DBState :=
  if insertTableOf query = some "meals" then insertMealValue value st
  else if insertTableOf query = some "ingredients" then insertIngredientValue value st
  else if insertTableOf query = some "measures" then insertMeasureValue value st
  else if insertTableOf query = some "recipes" then insertRecipeValue value st
  else .error .operationalError

/-- Execute SELECT * FROM t WHERE c = :value (fetchone): first matching row in
rowid order, for the four statement texts select_db can build. -/
def execSelectOne (query : String) (value : String) (st : DBState) :
    Except PyErr (Option (List Val)) :=
  if query = select_db_query "meals" "meal_name" then
    .ok ((st.meals.find? (fun r => r.meal_name == value)).map mealTuple)
  else if query = select_db_query "ingredients" "ingredient_name" then
    .ok ((st.ingredients.find? (fun r => r.ingredient_name == value)).map ingredientTuple)
  else if query = select_db_query "measures" "measure_name" then
    .ok ((st.measures.find? (fun r => r.measure_name == value)).map measureTuple)
  else if query = select_db_query "recipes" "recipe_name" then
    .ok ((st.recipes.find? (fun r => r.recipe_name == value)).map recipeTuple)
  else .error .operationalError

/-- Execute SELECT * FROM t; for the six tables of the schema (any other
table name is an unknown-table operational error). -/
def execSelectAll (query : String) (st : DBState) : Except PyErr (List (List Val)) :=
  if query = select_all_db_query "meals" then .ok (st.meals.map mealTuple)
  else if query = select_all_db_query "ingredients" then .ok (st.ingredients.map ingredientTuple)
  else if query = select_all_db_query "measures" then .ok (st.measures.map measureTuple)
  else if query = select_all_db_query "recipes" then .ok (st.recipes.map recipeTuple)
  else if query = select_all_db_query "serve" then .ok (st.serve.map serveTuple)
  else if query = select_all_db_query "quantity" then .ok (st.quantity.map quantityTuple)
  else .error .operationalError

/-- Execute DELETE FROM t WHERE c = :value for the four statement texts
db_remove can build. -/
def execDeleteByName (query : String) (value : String) (st : DBState) : Except PyErr DBState :=
  if query = db_remove_query "meals" "meal_name" then
    .ok { st with meals := st.meals.filter (fun r => !(r.meal_name == value)) }
  else if query = db_remove_query "ingredients" "ingredient_name" then
    .ok { st with ingredients := st.ingredients.filter (fun r => !(r.ingredient_name == value)) }
  else if query = db_remove_query "measures" "measure_name" then
    .ok { st with measures := st.measures.filter (fun r => !(r.measure_name == value)) }
  else if query = db_remove_query "recipes" "recipe_name" then
    .ok { st with recipes := st.recipes.filter (fun r => !(r.recipe_name == value)) }
  else .error .operationalError

/-- Execute DELETE FROM t; (no WHERE clause), as issued by truncate_tables. -/
def execDeleteAll (table : String) (st : DBState) : DBState :=
  if table = "meals" then { st with meals := [] }
  else if table = "ingredients" then { st with ingredients := [] }
  else if table = "measures" then { st with measures := [] }
  else if table = "recipes" then { st with recipes := [] }
  else if table = "serve" then { st with serve := [] }
  else if table = "quantity" then { st with quantity := [] }
  else st

/-! ## Record Access Layer and Recipe Composition Operations

Each function mirrors its namesake in src/database.py: the *args tuple is a
Lean list, the arity check and tuple unpacking come first, then the registry
lookup where the source has one, then statement construction and execution. -/

/-- insert_db (lines 185-225).  The arity check admits exactly two positional
arguments; the statement text comes from `insert_db_query`, which omits the
table name. -/
def insert_db (args : List String) (st : DBState) : Except PyErr DBState :=
  if args.length ≠ 2 then
    .error (.valueError "Function requires exactly 2 arguments: table_name, attribute_value")
  else
    match args with
    | [table_name, attribute_value] =>
      match attribute_conf table_name with
      | none => .error (.valueError (unsupportedTableMsg table_name))
      | some attribute_column =>
        execInsertValue (insert_db_query attribute_column) attribute_value st
    | _ => .error (.valueError unpackTwoMsg)

/-- insert_ingredient_measure (lines 306-345). -/
def insert_ingredient_measure (args : List String) (st : DBState) : Except PyErr DBState :=
  if args.length ≠ 2 then
    .error (.valueError "Function requires exactly 2 arguments: table_name and ingredient_name")
  else
    match args with
    | [table_name, attribute_value] =>
      match attribute_conf table_name with
      | none => .error (.valueError (unsupportedTableMsg table_name))
      | some attribute_column =>
        execInsertValue (insert_ingredient_measure_query table_name attribute_column)
          attribute_value st
    | _ => .error (.valueError unpackTwoMsg)

/-- insert_many_db (lines 394-429).  The two positional arguments (table name
and the sequence of values) are explicit parameters; executemany runs the
statement once per value and the surrounding with-block rolls the whole batch
back if any execution raises, which state passing models by discarding the
partial state on error. -/
def insert_many_db (table_name : String) (attribute_values : List String) (st : DBState) :
    Except PyErr DBState :=
  match attribute_conf table_name with
  | none => .error (.valueError (unsupportedTableMsg table_name))
  | some attribute_column =>
    attribute_values.foldlM
      (fun s v => execInsertValue (insert_many_db_query table_name attribute_column) v s) st

/-- insert_to_serve (lines 267-303).  With `wrapperForeignKeysOn = false` the
declared foreign keys of serve are not checked, so the row is appended
regardless of whether the referenced recipe and meal exist. -/
def insert_to_serve (args : List Int) (st : DBState) : Except PyErr DBState :=
  if args.length ≠ 2 then
    .error (.valueError "Function requires exactly 2 arguments: recipe_id and meal_id")
  else
    match args with
    | [recipe_id, meal_id] =>
      if wrapperForeignKeysOn ∧
          (¬ st.recipes.any (fun r => r.recipe_id == recipe_id) ∨
           ¬ st.meals.any (fun m => m.meal_id == meal_id)) then
        .error .integrityError
      else
        .ok { st with serve :=
          st.serve ++ [⟨nextId (st.serve.map (·.serve_id)), recipe_id, meal_id⟩] }
    | _ => .error (.valueError unpackTwoMsg)

/-- insert_to_quantity (lines 348-391).  The first positional argument is the
table name interpolated into the statement text; there is no registry lookup.
Only the text addressing the quantity table is well formed against the
schema; for any other table name the statement names a missing table or
missing columns and execution raises OperationalError.  The NOT NULL
constraints on the four inserted columns reject NULL bindings; with
`wrapperForeignKeysOn = false` the declared foreign keys are not checked. -/
def insert_to_quantity (args : List Val) (st : DBState) : Except PyErr DBState :=
  if args.length ≠ 5 then
    .error (.valueError
      "Function requires exactly 5 arguments: table_name, quantity, recipe_id, meal_id, ingredient_id")
  else
    match args with
    | [table_name, quantity, recipe_id, measure_id, ingredient_id] =>
      if insert_to_quantity_query (valStr table_name) = insert_to_quantity_query "quantity" then
        if quantity = .null ∨ recipe_id = .null ∨ measure_id = .null ∨ ingredient_id = .null then
          .error .integrityError
        else if wrapperForeignKeysOn ∧
            (¬ st.recipes.any (fun r => Val.int r.recipe_id == integerAffinity recipe_id) ∨
             ¬ st.measures.any (fun m => Val.int m.measure_id == integerAffinity measure_id) ∨
             ¬ st.ingredients.any (fun i => Val.int i.ingredient_id == integerAffinity ingredient_id)) then
          .error .integrityError
        else
          .ok { st with quantity :=
            st.quantity ++ [⟨nextId (st.quantity.map (·.quantity_id)),
              integerAffinity quantity, integerAffinity recipe_id,
              integerAffinity measure_id, integerAffinity ingredient_id⟩] }
      else .error .operationalError
    | _ => .error (.valueError "not enough values to unpack (expected 5)")

/-- db_remove (lines 464-496).  The arity check demands exactly three
positional arguments, but the unpacking on line 484 expects exactly two, so
one of the two always raises ValueError before any statement is built. -/
def db_remove (args : List String) (st : DBState) : Except PyErr DBState :=
  if args.length ≠ 3 then
    .error (.valueError
      "Function requires exactly 3 arguments: table_name, attribute, and attribute_value")
  else
    match args with
    | [table_name, attribute_value] =>
      match attribute_conf table_name with
      | none => .error (.valueError (unsupportedTableMsg table_name))
      | some attribute_column =>
        execDeleteByName (db_remove_query table_name attribute_column) attribute_value st
    | _ => .error (.valueError unpackTwoMsg)

/-- select_db (lines 499-537).  The arity check admits exactly two positional
arguments (its message text, copied from the source, claims three). -/
def select_db (args : List String) (st : DBState) : Except PyErr (Option (List Val)) :=
  if args.length ≠ 2 then
    .error (.valueError
      "Function requires exactly 3 arguments: table_name, attribute, and attribute_value")
  else
    match args with
    | [table_name, attribute_value] =>
      match attribute_conf table_name with
      | none => .error (.valueError (unsupportedTableMsg table_name))
      | some attribute_column =>
        execSelectOne (select_db_query table_name attribute_column) attribute_value st
    | _ => .error (.valueError unpackTwoMsg)

/-- select_all_db (lines 540-567): no registry lookup at all; the caller
table name goes straight into the statement text. -/
def select_all_db (args : List String) (st : DBState) : Except PyErr (List (List Val)) :=
  if args.length ≠ 1 then
    .error (.valueError "Function requires exactly 1 argument1: table_name")
  else
    match args with
    | [table_name] => execSelectAll (select_all_db_query table_name) st
    | _ => .error (.valueError "too many values to unpack (expected 1)")

/-- truncate_tables (lines 137-158): DELETE FROM t; for the three reference
tables, in order. -/
def truncate_tables (st : DBState) : DBState :=
  ["meals", "ingredients", "measures"].foldl (fun s t => execDeleteAll t s) st

/-! ## Recipe Search (find_recipes, database.py lines 570-625)

find_recipes interpolates the caller-supplied ingredient and meal names into
the query text (no bound parameters).  The embedding below is the relational
semantics of the generated SQL for names free of the single-quote character
(`sqlSafe`); a name containing a quote would change the statement text
itself, which is exactly the injection exposure the spec flags. -/

/-- The single-quote character, written by code point to keep source plain. -/
def squote : Char := Char.ofNat 39

/-- A name that does not contain the single-quote character, so that
interpolating it between quotes in the query text denotes that very string. -/
def sqlSafe (s : String) : Bool := !(s.data.contains squote)

/-- One row of the four-way join
recipes r JOIN quantity q ON r.recipe_id = q.recipe_id
JOIN ingredients i ON q.ingredient_id = i.ingredient_id
JOIN serve s ON r.recipe_id = s.recipe_id
JOIN meals m ON s.meal_id = m.meal_id. -/
structure JoinRow where
  r : RecipeRow
  q : QuantityRow
  i : IngredientRow
  s : ServeRow
  m : MealRow
deriving Repr, DecidableEq

/-- All rows of the four-way join, in nested-loop order. -/
def joinRows (st : DBState) : List JoinRow :=
  st.recipes.flatMap fun r =>
    (st.quantity.filter fun q => q.recipe_id == Val.int r.recipe_id).flatMap fun q =>
      (st.ingredients.filter fun i => q.ingredient_id == Val.int i.ingredient_id).flatMap fun i =>
        (st.serve.filter fun s => s.recipe_id == r.recipe_id).flatMap fun s =>
          (st.meals.filter fun m => m.meal_id == s.meal_id).map fun m =>
            ⟨r, q, i, s, m⟩

/-- First occurrence of each string, in order: the distinct grouping keys. -/
def dedupFirst : List String → List String
  | [] => []
  | k :: ks => k :: (dedupFirst ks).filter (fun x => !(x == k))

/-- GROUP BY key: one representative row per distinct key, in order of first
key occurrence.  SQLite leaves both the representative row of a bare column
and the output order of groups unspecified; the model fixes the first row of
each group and first-occurrence order, and no claim below depends on either
choice. -/
def groupFirst (key : JoinRow → String) (rows : List JoinRow) : List JoinRow :=
  (dedupFirst (rows.map key)).filterMap fun k => rows.find? fun jr => key jr == k

/-- Join rows passing the single-ingredient WHERE clause: the ingredient
comparison is hard-wired to the literal cacao (line 593), the meal must be in
the interpolated IN list. -/
def cacaoFiltered (meals : List String) (st : DBState) : List JoinRow :=
  (joinRows st).filter fun jr =>
    jr.i.ingredient_name == "cacao" && meals.contains jr.m.meal_name

/-- Join rows passing the multi-ingredient WHERE clause: the OR chain over
the interpolated ingredient names (membership), AND the meal IN list. -/
def multiFiltered (ingredients meals : List String) (st : DBState) : List JoinRow :=
  (joinRows st).filter fun jr =>
    ingredients.contains jr.i.ingredient_name && meals.contains jr.m.meal_name

/-- The ingredient names of the group of a given recipe name, over which
HAVING COUNT(DISTINCT i.ingredient_name) counts. -/
def groupIngredientNames (ingredients meals : List String) (st : DBState) (n : String) :
    List String :=
  ((multiFiltered ingredients meals st).filter fun jr => jr.r.recipe_name == n).map
    fun jr => jr.i.ingredient_name

/-- Result rows of the multi-ingredient branch: GROUP BY r.recipe_name,
HAVING COUNT(DISTINCT i.ingredient_name) = number of requested ingredients,
SELECT r.recipe_name. -/
def multiBranchNames (ingredients meals : List String) (st : DBState) : List String :=
  ((groupFirst (fun jr => jr.r.recipe_name) (multiFiltered ingredients meals st)).filter
    fun jr =>
      (dedupFirst (groupIngredientNames ingredients meals st jr.r.recipe_name)).length ==
        ingredients.length).map fun jr => jr.r.recipe_name

/-- Result rows of the single-ingredient branch: GROUP BY m.meal_name,
SELECT r.recipe_name. -/
def singleBranchNames (meals : List String) (st : DBState) : List String :=
  (groupFirst (fun jr => jr.m.meal_name) (cacaoFiltered meals st)).map
    fun jr => jr.r.recipe_name

/-- find_recipes up to the final string join: the recipe names fetchall
returns, or the error execution raises.  With exactly one ingredient the
hard-wired cacao query runs; otherwise the OR chain is built by joining one
equality per ingredient with OR, so with zero ingredients the WHERE clause
degenerates to an empty parenthesis pair, which the SQLite parser rejects
(OperationalError). -/
def find_recipes_names (ingredients meals : List String) (st : DBState) :
    Except PyErr (List String) :=
  if ingredients.length == 1 then
    .ok (singleBranchNames meals st)
  else if ingredients.isEmpty then
    .error .operationalError
  else
    .ok (multiBranchNames ingredients meals st)

/-- find_recipes (lines 570-625): the fetched recipe names joined into a
single comma-and-space-separated string. -/
def find_recipes (ingredients meals : List String) (st : DBState) : Except PyErr String :=
  (find_recipes_names ingredients meals st).map fun names => String.intercalate ", " names

/-! ## Semantic predicates about a database state -/

/-- The recipe has, for every listed ingredient name, a quantity line whose
ingredient id resolves to that name. -/
def coversAll (st : DBState) (ingredients : List String) (r : RecipeRow) : Prop :=
  ∀ x ∈ ingredients, ∃ q ∈ st.quantity, q.recipe_id = Val.int r.recipe_id ∧
    ∃ i ∈ st.ingredients, q.ingredient_id = Val.int i.ingredient_id ∧ i.ingredient_name = x

/-- The recipe has a serve row landing on a meal whose name is in the given
meal set. -/
def servableAtSome (st : DBState) (meals : List String) (r : RecipeRow) : Prop :=
  ∃ s ∈ st.serve, s.recipe_id = r.recipe_id ∧
    ∃ m ∈ st.meals, m.meal_id = s.meal_id ∧ m.meal_name ∈ meals

/-! ## Concrete states for evaluation

Seed data of blog.py (lines 79-86) plus the recipe rows each example needs. -/

def mealsSeed : List MealRow :=
  [⟨1, "breakfast"⟩, ⟨2, "brunch"⟩, ⟨3, "lunch"⟩, ⟨4, "supper"⟩]

def ingredientsSeed : List IngredientRow :=
  [⟨1, "milk"⟩, ⟨2, "cacao"⟩, ⟨3, "strawberry"⟩, ⟨4, "blueberry"⟩,
   ⟨5, "blackberry"⟩, ⟨6, "sugar"⟩]

def measuresSeed : List MeasureRow :=
  [⟨1, "ml"⟩, ⟨2, "g"⟩, ⟨3, "l"⟩, ⟨4, "cup"⟩, ⟨5, "tbsp"⟩, ⟨6, "tsp"⟩, ⟨7, "dsp"⟩, ⟨8, ""⟩]

/-- Seeded state with one recipe that contains cacao and is served at
breakfast. -/
def cacaoState : DBState where
  meals := mealsSeed
  ingredients := ingredientsSeed
  measures := measuresSeed
  recipes := [⟨1, "hot cacao", some "warm cacao drink"⟩]
  serve := [⟨1, 1, 1⟩]
  quantity := [⟨1, .int 5, .int 1, .int 2, .int 2⟩]

/-- Seeded state with one recipe requiring exactly milk and sugar, served at
both breakfast and lunch. -/
def milkshakeState : DBState where
  meals := mealsSeed
  ingredients := ingredientsSeed
  measures := measuresSeed
  recipes := [⟨1, "milkshake", some "milk with sugar"⟩]
  serve := [⟨1, 1, 1⟩, ⟨2, 1, 3⟩]
  quantity := [⟨1, .int 200, .int 1, .int 1, .int 1⟩, ⟨2, .int 50, .int 1, .int 2, .int 6⟩]

/-- State with one recipe and one meal, used for the serve insert. -/
def serveBaseState : DBState where
  meals := mealsSeed
  ingredients := ingredientsSeed
  measures := measuresSeed
  recipes := [⟨1, "pancakes", some "breakfast pancakes"⟩]
  serve := []
  quantity := []

/-- State with a single serve row, used to show select_all_db and
insert_to_quantity run without registry validation. -/
def serveRowState : DBState where
  meals := []
  ingredients := []
  measures := []
  recipes := []
  serve := [⟨1, 1, 1⟩]
  quantity := []

/-! ## List-level lemmas about grouping -/

/-- Membership is preserved by taking first occurrences. -/
theorem mem_dedupFirst {l : List String} {x : String} : x ∈ dedupFirst l ↔ x ∈ l := by
  induction l with
  | nil => simp [dedupFirst]
  | cons k ks ih =>
    simp only [dedupFirst, List.mem_cons, List.mem_filter, ih, Bool.not_eq_true', beq_eq_false_iff_ne]
    constructor
    · rintro (rfl | ⟨h, _⟩)
      · exact Or.inl rfl
      · exact Or.inr h
    · rintro (rfl | h)
      · exact Or.inl rfl
      · by_cases hx : x = k
        · exact Or.inl hx
        · exact Or.inr ⟨h, hx⟩

/-- The distinct keys contain no duplicates. -/
theorem nodup_dedupFirst (l : List String) : (dedupFirst l).Nodup := by
  induction l with
  | nil => simp [dedupFirst]
  | cons k ks ih =>
    simp only [dedupFirst, List.nodup_cons]
    refine ⟨fun hk => ?_, ih.filter _⟩
    rcases List.mem_filter.mp hk with ⟨_, hne⟩
    simp at hne

/-- Every group representative is one of the grouped rows. -/
theorem mem_of_mem_groupFirst {key : JoinRow → String} {rows : List JoinRow} {jr : JoinRow}
    (h : jr ∈ groupFirst key rows) : jr ∈ rows := by
  rcases List.mem_filterMap.mp h with ⟨k, _, hfind⟩
  exact List.mem_of_find?_eq_some hfind

/-- The keys of the group representatives are exactly the distinct keys of
the grouped rows, in order. -/
theorem map_key_groupFirst (key : JoinRow → String) (rows : List JoinRow) :
    (groupFirst key rows).map key = dedupFirst (rows.map key) := by
  unfold groupFirst
  have : ∀ ks : List String, (∀ k ∈ ks, k ∈ rows.map key) →
      ((ks.filterMap fun k => rows.find? fun jr => key jr == k).map key) = ks := by
    intro ks
    induction ks with
    | nil => intro _; simp
    | cons k ks ih =>
      intro hks
      have hk : k ∈ rows.map key := hks k (List.mem_cons_self k ks)
      have hsome : (rows.find? fun jr => key jr == k).isSome := by
        rw [List.find?_isSome]
        rcases List.mem_map.mp hk with ⟨jr, hjr, hkey⟩
        exact ⟨jr, hjr, by simp [hkey]⟩
      rcases Option.isSome_iff_exists.mp hsome with ⟨jr0, hjr0⟩
      have hkey0 : key jr0 = k := by
        have := List.find?_some hjr0
        simpa using this
      simp only [List.filterMap_cons, hjr0, List.map_cons, hkey0]
      exact congrArg (k :: ·) (ih fun x hx => hks x (List.mem_cons_of_mem _ hx))
  exact this _ fun k hk => mem_dedupFirst.mp hk

/-- A key occurs among the representatives iff it occurs among the rows. -/
theorem mem_map_groupFirst {key : JoinRow → String} {rows : List JoinRow} {n : String} :
    n ∈ (groupFirst key rows).map key ↔ n ∈ rows.map key := by
  rw [map_key_groupFirst, mem_dedupFirst]

/-- Representatives carry pairwise distinct keys: at most one output row per
key value. -/
theorem nodup_map_key_groupFirst (key : JoinRow → String) (rows : List JoinRow) :
    ((groupFirst key rows).map key).Nodup := by
  rw [map_key_groupFirst]; exact nodup_dedupFirst _

/-- Pigeonhole for COUNT(DISTINCT): over a list of names all drawn from a
duplicate-free request list, the distinct count reaches the request length
iff every requested name occurs. -/
theorem dedupFirst_length_eq_iff {l req : List String}
    (hsub : ∀ x ∈ l, x ∈ req) (hnd : req.Nodup) :
    (dedupFirst l).length = req.length ↔ ∀ x ∈ req, x ∈ l := by
  constructor
  · intro hlen x hx
    have hsub' : dedupFirst l ⊆ req := fun y hy => hsub y (mem_dedupFirst.mp hy)
    have hperm : List.Perm (dedupFirst l) req :=
      ((nodup_dedupFirst l).subperm hsub').perm_of_length_le (le_of_eq hlen.symm)
    exact mem_dedupFirst.mp (hperm.mem_iff.mpr hx)
  · intro hall
    have h1 : dedupFirst l ⊆ req := fun y hy => hsub y (mem_dedupFirst.mp hy)
    have h2 : req ⊆ dedupFirst l := fun y hy => mem_dedupFirst.mpr (hall y hy)
    exact le_antisymm (((nodup_dedupFirst l).subperm h1).length_le)
      ((hnd.subperm h2).length_le)

/-- Membership in the four-way join, unfolded to row-level conditions. -/
theorem mem_joinRows {st : DBState} {jr : JoinRow} :
    jr ∈ joinRows st ↔
      jr.r ∈ st.recipes ∧
      jr.q ∈ st.quantity ∧ jr.q.recipe_id = Val.int jr.r.recipe_id ∧
      jr.i ∈ st.ingredients ∧ jr.q.ingredient_id = Val.int jr.i.ingredient_id ∧
      jr.s ∈ st.serve ∧ jr.s.recipe_id = jr.r.recipe_id ∧
      jr.m ∈ st.meals ∧ jr.m.meal_id = jr.s.meal_id := by
  constructor
  · intro h
    simp only [joinRows, List.mem_flatMap, List.mem_filter, List.mem_map] at h
    obtain ⟨r, hr, q, ⟨hq, hq2⟩, i, ⟨hi, hi2⟩, s, ⟨hs, hs2⟩, m, ⟨hm, hm2⟩, rfl⟩ := h
    refine ⟨hr, hq, by simpa using hq2, hi, by simpa using hi2,
      hs, by simpa using hs2, hm, by simpa using hm2⟩
  · rintro ⟨hr, hq, hq2, hi, hi2, hs, hs2, hm, hm2⟩
    simp only [joinRows, List.mem_flatMap, List.mem_filter, List.mem_map]
    exact ⟨jr.r, hr, jr.q, ⟨hq, by simp [hq2]⟩, jr.i, ⟨hi, by simp [hi2]⟩,
      jr.s, ⟨hs, by simp [hs2]⟩, jr.m, ⟨hm, by simp [hm2]⟩, rfl⟩

/-! ## Claim theorems -/

/-- C8: attribute_conf is a pure total lookup returning meal_name for meals,
ingredient_name for ingredients, measure_name for measures, recipe_name for
recipes, and None for every other input string, e.g. serve. -/
theorem C8_registry_totality :
    attribute_conf "meals" = some "meal_name" ∧
    attribute_conf "ingredients" = some "ingredient_name" ∧
    attribute_conf "measures" = some "measure_name" ∧
    attribute_conf "recipes" = some "recipe_name" ∧
    attribute_conf "serve" = none ∧
    ∀ t : String,
      attribute_conf t = none ∨
      (t = "meals" ∧ attribute_conf t = some "meal_name") ∨
      (t = "ingredients" ∧ attribute_conf t = some "ingredient_name") ∨
      (t = "measures" ∧ attribute_conf t = some "measure_name") ∨
      (t = "recipes" ∧ attribute_conf t = some "recipe_name") := by
  refine ⟨by decide, by decide, by decide, by decide, by decide, ?_⟩
  intro t
  by_cases h1 : t = "meals"
  · exact Or.inr (Or.inl ⟨h1, by subst h1; decide⟩)
  by_cases h2 : t = "ingredients"
  · exact Or.inr (Or.inr (Or.inl ⟨h2, by subst h2; decide⟩))
  by_cases h3 : t = "measures"
  · exact Or.inr (Or.inr (Or.inr (Or.inl ⟨h3, by subst h3; decide⟩)))
  by_cases h4 : t = "recipes"
  · exact Or.inr (Or.inr (Or.inr (Or.inr ⟨h4, by subst h4; decide⟩)))
  · exact Or.inl (by simp [attribute_conf, h1, h2, h3, h4])

/-- C9: truncate_tables empties exactly the three reference tables meals,
ingredients, measures, and leaves recipes, serve and quantity unchanged. -/
theorem C9_truncate_tables_frame (st : DBState) :
    (truncate_tables st).meals = [] ∧
    (truncate_tables st).ingredients = [] ∧
    (truncate_tables st).measures = [] ∧
    (truncate_tables st).recipes = st.recipes ∧
    (truncate_tables st).serve = st.serve ∧
    (truncate_tables st).quantity = st.quantity :=
  ⟨rfl, rfl, rfl, rfl, rfl, rfl⟩

/-- C10: in the batch insert, the ingredient/measure insert, select by name
and delete by name, the caller value is carried only in the bound-parameter
dictionary (named placeholder value); the query text is a function of the
table name alone, so two calls differing only in the value construct
identical query strings. -/
theorem C10_value_only_bound_never_interpolated
    (table v w : String) (vs ws : List String) :
    (insert_many_db_stmt table vs).map BoundBatch.query =
      (insert_many_db_stmt table ws).map BoundBatch.query ∧
    (insert_ingredient_measure_stmt table v).map BoundStmt.query =
      (insert_ingredient_measure_stmt table w).map BoundStmt.query ∧
    (select_db_stmt table v).map BoundStmt.query =
      (select_db_stmt table w).map BoundStmt.query ∧
    (db_remove_stmt table v).map BoundStmt.query =
      (db_remove_stmt table w).map BoundStmt.query ∧
    (insert_many_db_stmt table vs).map BoundBatch.paramsSeq =
      (attribute_conf table).map (fun _ => vs.map fun x => [("value", x)]) ∧
    (insert_ingredient_measure_stmt table v).map BoundStmt.params =
      (attribute_conf table).map (fun _ => [("value", v)]) ∧
    (select_db_stmt table v).map BoundStmt.params =
      (attribute_conf table).map (fun _ => [("value", v)]) ∧
    (db_remove_stmt table v).map BoundStmt.params =
      (attribute_conf table).map (fun _ => [("value", v)]) := by
  cases h : attribute_conf table <;>
    simp [insert_many_db_stmt, insert_ingredient_measure_stmt, select_db_stmt,
      db_remove_stmt, h]

/-- C1 (code bug): the claim demands that a serve insert referencing a
nonexistent recipe fail with ConstraintViolation, but the db_connect wrapper
misspells execute as excecute when issuing PRAGMA foreign_keys = ON, so
foreign keys stay unenforced and insert_to_serve with recipe_id 9999 silently
appends the row. -/
theorem C1_serve_insert_with_missing_recipe_silently_succeeds :
    wrapperForeignKeysOn = false ∧
    (serveBaseState.recipes.any fun r => r.recipe_id == 9999) = false ∧
    insert_to_serve [9999, 1] serveBaseState =
      .ok { serveBaseState with serve := [⟨1, 9999, 1⟩] } :=
  ⟨rfl, rfl, rfl⟩

/-- C2 (code bug): insert_db builds its INSERT statement without any table
name, so the statement is rejected by the SQL parser (OperationalError),
nothing is inserted, and the insert/select round trip the claim describes
cannot happen. -/
theorem C2_insert_db_query_omits_table_name :
    insert_db_query "meal_name" = "INSERT INTO (meal_name) VALUES (:value);" ∧
    insertTableOf (insert_db_query "meal_name") = none ∧
    insert_db ["meals", "brunch"] DBState.empty = .error .operationalError ∧
    select_db ["meals", "brunch"] DBState.empty = .ok none :=
  ⟨rfl, by decide, rfl, rfl⟩

/-- C3 (code bug): db_remove insists on exactly three positional arguments
but then unpacks them into two variables, so the documented two-argument call
raises the arity ValueError, the three-argument call raises the unpacking
ValueError, and no call ever deletes anything. -/
theorem C3_db_remove_always_raises :
    db_remove ["meals", "brunch"] cacaoState =
      .error (.valueError
        "Function requires exactly 3 arguments: table_name, attribute, and attribute_value") ∧
    db_remove ["meals", "meal_name", "brunch"] cacaoState =
      .error (.valueError unpackTwoMsg) ∧
    ∀ (args : List String) (st : DBState), ∃ e, db_remove args st = .error e := by
  refine ⟨rfl, rfl, ?_⟩
  intro args st
  match args with
  | [] => exact ⟨_, rfl⟩
  | [a] => exact ⟨_, rfl⟩
  | [a, b] => exact ⟨_, rfl⟩
  | [a, b, c] => exact ⟨_, rfl⟩
  | a :: b :: c :: d :: rest => exact ⟨_, rfl⟩

/-- C6 (counterexample): with an empty ingredient set the call does not
succeed with the empty string: the OR chain over zero ingredients leaves the
WHERE clause as an empty parenthesis pair, the SQLite parser rejects the
statement, and find_recipes raises OperationalError. -/
theorem C6_counterexample_empty_ingredients :
    find_recipes [] ["breakfast"] DBState.empty = .error .operationalError ∧
    ∀ s : String, find_recipes [] ["breakfast"] DBState.empty ≠ .ok s := by
  refine ⟨rfl, fun s h => ?_⟩
  rw [show find_recipes [] ["breakfast"] DBState.empty = .error .operationalError from rfl] at h
  exact Except.noConfusion h

/-- C6 (amended): with a nonempty ingredient set and an empty meal set,
find_recipes succeeds and returns the empty string (the meal IN list is
empty, which SQLite accepts and which matches no row).  The sqlSafe
hypothesis pins the quote-free regime in which the embedding is the
semantics of the interpolated query text. -/
theorem C6_amended_empty_meals_no_matches (ingredients : List String) (st : DBState)
    (hne : ingredients ≠ []) (_hsafe : ∀ x ∈ ingredients, sqlSafe x = true) :
    find_recipes ingredients [] st = .ok "" := by
  match ingredients, hne with
  | [x], _ =>
    have hc : cacaoFiltered [] st = [] := by
      simp [cacaoFiltered]
    simp only [find_recipes, find_recipes_names, singleBranchNames, hc]
    rfl
  | x :: y :: rest, _ =>
    have hm : multiFiltered (x :: y :: rest) [] st = [] := by
      simp [multiFiltered]
    have hlen : ((x :: y :: rest).length == 1) = false := rfl
    simp only [find_recipes, find_recipes_names, multiBranchNames, hm, hlen,
      Bool.false_eq_true, if_false]
    rfl

/-- C6 (witness): the amended statement at a concrete input. -/
theorem C6_amended_witness :
    ((["milk", "sugar"] : List String) ≠ [] ∧
      ∀ x ∈ (["milk", "sugar"] : List String), sqlSafe x = true) ∧
    find_recipes ["milk", "sugar"] [] DBState.empty = .ok "" :=
  ⟨⟨by decide, by decide⟩,
    C6_amended_empty_meals_no_matches ["milk", "sugar"] DBState.empty (by decide) (by decide)⟩

/-- C7 (counterexample): select_all_db and insert_to_quantity never consult
the Table Registry.  With the registry-unsupported table names serve and
quantity, select_all_db happily returns the serve rows and
insert_to_quantity happily inserts a quantity row; neither raises the
UnsupportedTable ValueError. -/
theorem C7_counterexample_unvalidated_primitives :
    attribute_conf "serve" = none ∧
    attribute_conf "quantity" = none ∧
    select_all_db ["serve"] serveRowState = .ok [[.int 1, .int 1, .int 1]] ∧
    insert_to_quantity [.text "quantity", .int 5, .int 1, .int 1, .int 2] serveRowState =
      .ok { serveRowState with quantity := [⟨1, .int 5, .int 1, .int 1, .int 2⟩] } :=
  ⟨by decide, by decide, rfl, rfl⟩

/-- C7 (amended): the (table, value) name-column primitives that reach their
registry lookup - insert_db, insert_ingredient_measure, insert_many_db and
select_db - do validate the caller table name through attribute_conf before
building a query and signal an unsupported name with the distinct
UnsupportedTable ValueError. -/
theorem C7_amended_name_column_primitives_validate (t v : String) (vs : List String)
    (st : DBState) (h : attribute_conf t = none) :
    insert_db [t, v] st = .error (.valueError (unsupportedTableMsg t)) ∧
    insert_ingredient_measure [t, v] st = .error (.valueError (unsupportedTableMsg t)) ∧
    insert_many_db t vs st = .error (.valueError (unsupportedTableMsg t)) ∧
    select_db [t, v] st = .error (.valueError (unsupportedTableMsg t)) := by
  refine ⟨?_, ?_, ?_, ?_⟩ <;>
    simp [insert_db, insert_ingredient_measure, insert_many_db, select_db, h]

/-- C7 (witness): the amended statement at the concrete unsupported table
name serve. -/
theorem C7_amended_witness :
    attribute_conf "serve" = none ∧
    insert_db ["serve", "x"] DBState.empty =
      .error (.valueError (unsupportedTableMsg "serve")) ∧
    insert_ingredient_measure ["serve", "x"] DBState.empty =
      .error (.valueError (unsupportedTableMsg "serve")) ∧
    insert_many_db "serve" ["x"] DBState.empty =
      .error (.valueError (unsupportedTableMsg "serve")) ∧
    select_db ["serve", "x"] DBState.empty =
      .error (.valueError (unsupportedTableMsg "serve")) :=
  ⟨by decide,
    (C7_amended_name_column_primitives_validate "serve" "x" ["x"] DBState.empty (by decide)).1,
    (C7_amended_name_column_primitives_validate "serve" "x" ["x"] DBState.empty (by decide)).2.1,
    (C7_amended_name_column_primitives_validate "serve" "x" ["x"] DBState.empty (by decide)).2.2.1,
    (C7_amended_name_column_primitives_validate "serve" "x" ["x"] DBState.empty (by decide)).2.2.2⟩

/-- C4: with exactly one ingredient the result is independent of the supplied
ingredient name; the fetched rows are the hard-wired cacao rows grouped by
meal name; every group representative is a recipe containing cacao and
servable at a requested meal; the representatives carry pairwise distinct
meal names (at most one result row per matching meal) and cover exactly the
meal names occurring among the matching rows; and the seeded example
requesting sugar at breakfast returns the cacao recipe.  The sqlSafe
hypothesis pins the quote-free regime in which the embedding is the
semantics of the interpolated query text. -/
theorem C4_single_ingredient_hardwired_to_cacao
    (ing : String) (meals : List String) (st : DBState)
    (_hsafe : ∀ m ∈ meals, sqlSafe m = true) :
    (∀ ing2 : String, find_recipes [ing2] meals st = find_recipes [ing] meals st) ∧
    find_recipes_names [ing] meals st = .ok (singleBranchNames meals st) ∧
    (∀ jr ∈ groupFirst (fun jr => jr.m.meal_name) (cacaoFiltered meals st),
      jr.r ∈ st.recipes ∧ coversAll st ["cacao"] jr.r ∧ servableAtSome st meals jr.r) ∧
    ((groupFirst (fun jr => jr.m.meal_name) (cacaoFiltered meals st)).map
      fun jr => jr.m.meal_name).Nodup ∧
    (∀ mname : String,
      mname ∈ ((groupFirst (fun jr => jr.m.meal_name) (cacaoFiltered meals st)).map
        fun jr => jr.m.meal_name) ↔
      mname ∈ ((cacaoFiltered meals st).map fun jr => jr.m.meal_name)) ∧
    find_recipes ["sugar"] ["breakfast"] cacaoState = .ok "hot cacao" := by
  refine ⟨fun ing2 => rfl, rfl, ?_, nodup_map_key_groupFirst _ _,
    fun mname => mem_map_groupFirst, rfl⟩
  intro jr hjr
  have hmem : jr ∈ cacaoFiltered meals st := mem_of_mem_groupFirst hjr
  rcases List.mem_filter.mp hmem with ⟨hjoin, hcond⟩
  rcases (Bool.and_eq_true _ _).mp hcond with ⟨hcacao, hmeal⟩
  have hcacao2 : jr.i.ingredient_name = "cacao" := by simpa using hcacao
  have hmeal2 : jr.m.meal_name ∈ meals := by simpa using hmeal
  rcases mem_joinRows.mp hjoin with ⟨hr, hq, hq2, hi, hi2, hs, hs2, hm, hm2⟩
  refine ⟨hr, ?_, jr.s, hs, hs2, jr.m, hm, hm2, hmeal2⟩
  intro x hx
  have hx2 : x = "cacao" := by simpa using hx
  exact ⟨jr.q, hq, hq2, jr.i, hi, hi2, hx2 ▸ hcacao2⟩

/-- C4 (witness): the statement at a concrete input, every hypothesis
discharged. -/
theorem C4_witness :
    (∀ m ∈ (["breakfast"] : List String), sqlSafe m = true) ∧
    find_recipes ["sugar"] ["breakfast"] cacaoState = .ok "hot cacao" :=
  ⟨by decide,
    (C4_single_ingredient_hardwired_to_cacao "sugar" ["breakfast"] cacaoState
      (by decide)).2.2.2.2.2⟩

/-- C5: with more than one requested ingredient, a recipe name appears in the
result iff the recipe with that name covers every requested ingredient (the
HAVING distinct count reaches the request size) and is servable at at least
one requested meal; each matching name appears exactly once; the caller
observes the names as a single comma-and-space-joined string.  Hypotheses:
at least two ingredients (the branch the claim describes), a duplicate-free
ingredient set, recipe names identifying recipes (the claim speaks of "the
recipe" bearing the name; the grouped query groups by name), and quote-free
names (the regime in which the embedding is the semantics of the
interpolated query text). -/
theorem C5_multi_ingredient_covers_all_and_some_meal
    (ingredients meals : List String) (st : DBState)
    (h2 : 2 ≤ ingredients.length) (hnd : ingredients.Nodup)
    (hrn : (st.recipes.map fun r => r.recipe_name).Nodup)
    (_hsafeI : ∀ x ∈ ingredients, sqlSafe x = true)
    (_hsafeM : ∀ m ∈ meals, sqlSafe m = true) :
    find_recipes_names ingredients meals st = .ok (multiBranchNames ingredients meals st) ∧
    find_recipes ingredients meals st =
      .ok (String.intercalate ", " (multiBranchNames ingredients meals st)) ∧
    (multiBranchNames ingredients meals st).Nodup ∧
    ∀ n : String,
      (n ∈ multiBranchNames ingredients meals st ↔
        ∃ r ∈ st.recipes, r.recipe_name = n ∧ coversAll st ingredients r ∧
          servableAtSome st meals r) := by
  have hb1 : (ingredients.length == 1) = false := by
    have hne : ingredients.length ≠ 1 := by omega
    exact beq_eq_false_iff_ne.mpr hne
  have hb0 : ingredients.isEmpty = false := by
    cases ingredients with
    | nil => simp at h2
    | cons a l => rfl
  have hnames : find_recipes_names ingredients meals st =
      .ok (multiBranchNames ingredients meals st) := by
    simp [find_recipes_names, hb1, hb0]
  have hsubnames : ∀ nn : String,
      ∀ x ∈ groupIngredientNames ingredients meals st nn, x ∈ ingredients := by
    intro nn x hx
    rcases List.mem_map.mp hx with ⟨jr2, hjr2, hx2⟩
    rcases List.mem_filter.mp hjr2 with ⟨hjr2f, _⟩
    rcases List.mem_filter.mp hjr2f with ⟨_, hcond2⟩
    rcases (Bool.and_eq_true _ _).mp hcond2 with ⟨hing2, _⟩
    subst hx2
    simpa using hing2
  refine ⟨hnames, by unfold find_recipes; rw [hnames]; rfl, ?_, ?_⟩
  · unfold multiBranchNames
    have hsub :
        List.Sublist
          ((groupFirst (fun jr => jr.r.recipe_name) (multiFiltered ingredients meals st)).filter
            fun jr =>
              (dedupFirst (groupIngredientNames ingredients meals st jr.r.recipe_name)).length ==
                ingredients.length)
          (groupFirst (fun jr => jr.r.recipe_name) (multiFiltered ingredients meals st)) :=
      List.filter_sublist _
    exact (nodup_map_key_groupFirst (fun jr => jr.r.recipe_name) _).sublist
      (hsub.map fun jr => jr.r.recipe_name)
  · intro n
    constructor
    · intro hn
      rcases List.mem_map.mp hn with ⟨jr, hjr, hkey⟩
      rcases List.mem_filter.mp hjr with ⟨hrep, hpred⟩
      have hcount : (dedupFirst (groupIngredientNames ingredients meals st n)).length =
          ingredients.length := by
        rw [← hkey]
        exact beq_iff_eq.mp hpred
      have hmemf : jr ∈ multiFiltered ingredients meals st := mem_of_mem_groupFirst hrep
      rcases List.mem_filter.mp hmemf with ⟨hjoin, hcond⟩
      rcases (Bool.and_eq_true _ _).mp hcond with ⟨hingc, hmealc⟩
      rcases mem_joinRows.mp hjoin with ⟨hr, hq, hq2, hi, hi2, hs, hs2, hm, hm2⟩
      refine ⟨jr.r, hr, hkey, ?_, jr.s, hs, hs2, jr.m, hm, hm2, by simpa using hmealc⟩
      have hall := (dedupFirst_length_eq_iff (hsubnames n) hnd).mp hcount
      intro x hx
      rcases List.mem_map.mp (hall x hx) with ⟨jr2, hjr2, rfl⟩
      rcases List.mem_filter.mp hjr2 with ⟨hjr2f, hname2⟩
      have hname2e : jr2.r.recipe_name = n := by simpa using hname2
      rcases List.mem_filter.mp hjr2f with ⟨hjoin2, _⟩
      rcases mem_joinRows.mp hjoin2 with ⟨hr2, hq2m, hq2e, hi2m, hi2e, _, _, _, _⟩
      have hreq : jr2.r = jr.r :=
        List.inj_on_of_nodup_map hrn hr2 hr (by rw [hname2e, hkey])
      exact ⟨jr2.q, hq2m, by rw [hq2e, hreq], jr2.i, hi2m, hi2e, rfl⟩
    · rintro ⟨r, hr, rfl, hcov, s0, hs0, hs0e, m0, hm0, hm0e, hm0mem⟩
      have hrow : ∀ x ∈ ingredients, ∃ jr ∈ multiFiltered ingredients meals st,
          jr.r = r ∧ jr.i.ingredient_name = x := by
        intro x hx
        rcases hcov x hx with ⟨qx, hqx, hqxe, ix, hix, hixe, hixn⟩
        refine ⟨⟨r, qx, ix, s0, m0⟩, ?_, rfl, hixn⟩
        refine List.mem_filter.mpr
          ⟨mem_joinRows.mpr ⟨hr, hqx, hqxe, hix, hixe, hs0, hs0e, hm0, hm0e⟩, ?_⟩
        refine (Bool.and_eq_true _ _).mpr ⟨?_, by simpa using hm0mem⟩
        show ingredients.contains ix.ingredient_name = true
        rw [hixn]
        simpa using hx
      have hall : ∀ x ∈ ingredients,
          x ∈ groupIngredientNames ingredients meals st r.recipe_name := by
        intro x hx
        rcases hrow x hx with ⟨jr, hjr, hjrr, hjri⟩
        exact List.mem_map.mpr ⟨jr, List.mem_filter.mpr ⟨hjr, by simp [hjrr]⟩, hjri⟩
      have hcount := (dedupFirst_length_eq_iff (hsubnames r.recipe_name) hnd).mpr hall
      obtain ⟨x0, hx0⟩ : ∃ x, x ∈ ingredients := by
        cases ingredients with
        | nil => simp at h2
        | cons a l => exact ⟨a, List.mem_cons_self a l⟩
      rcases hrow x0 hx0 with ⟨jr0, hjr0, hjr0r, _⟩
      have hkeymem : r.recipe_name ∈ (groupFirst (fun jr => jr.r.recipe_name)
          (multiFiltered ingredients meals st)).map fun jr => jr.r.recipe_name :=
        mem_map_groupFirst.mpr (List.mem_map.mpr ⟨jr0, hjr0, by rw [hjr0r]⟩)
      rcases List.mem_map.mp hkeymem with ⟨jrK, hjrK, hjrKn⟩
      refine List.mem_map.mpr ⟨jrK, List.mem_filter.mpr ⟨hjrK, ?_⟩, hjrKn⟩
      show ((dedupFirst (groupIngredientNames ingredients meals st jrK.r.recipe_name)).length ==
        ingredients.length) = true
      rw [hjrKn]
      exact beq_iff_eq.mpr hcount

/-- C5 (witness): the statement at the concrete milkshake example, every
hypothesis discharged: a recipe requiring exactly milk and sugar, servable
at breakfast and lunch, requested with ingredients milk and sugar at lunch. -/
theorem C5_witness :
    (2 ≤ (["milk", "sugar"] : List String).length ∧
      (["milk", "sugar"] : List String).Nodup ∧
      (milkshakeState.recipes.map fun r => r.recipe_name).Nodup) ∧
    (find_recipes ["milk", "sugar"] ["lunch"] milkshakeState =
        .ok (String.intercalate ", " (multiBranchNames ["milk", "sugar"] ["lunch"] milkshakeState)) ∧
      ∀ n : String,
        (n ∈ multiBranchNames ["milk", "sugar"] ["lunch"] milkshakeState ↔
          ∃ r ∈ milkshakeState.recipes, r.recipe_name = n ∧
            coversAll milkshakeState ["milk", "sugar"] r ∧
            servableAtSome milkshakeState ["lunch"] r)) :=
  ⟨⟨by decide, by decide, by decide⟩,
    (C5_multi_ingredient_covers_all_and_some_meal ["milk", "sugar"] ["lunch"] milkshakeState
      (by decide) (by decide) (by decide) (by decide) (by decide)).2.1,
    (C5_multi_ingredient_covers_all_and_some_meal ["milk", "sugar"] ["lunch"] milkshakeState
      (by decide) (by decide) (by decide) (by decide) (by decide)).2.2.2⟩
